import Mathlib

/-!
Verification of the real-time WebSocket messaging core of `mcp-common`
(`mcp_common/websocket/{protocol,client,server,auth}.py`) against its
natural-language specification.

The Python code is shallowly embedded: pydantic models become structures,
JSON documents become an explicit `Json` tree, Python dicts and sets become
association lists and duplicate-free lists with the same operational
behaviour, and the fresh values produced by `uuid.uuid4()` /
`datetime.now().isoformat()` are passed in as explicit parameters.
Fallible operations (pydantic validation, the PyJWT decode call) return
`Option` / `Except` values.
-/

namespace McpCommon

/-- A JSON value, the shape of pydantic payloads on the wire.
`data` payload fields are opaque `Json` values, so unknown application
fields are representable. -/
inductive Json where
  | null : Json
  | bool (b : Bool) : Json
  | num (n : Int) : Json
  | str (s : String) : Json
  | arr (elems : List Json) : Json
  | obj (fields : List (String × Json)) : Json

/-- Wire message kinds, mirroring `MessageType(str, Enum)` in
`protocol.py`. -/
inductive MessageType where
  | request
  | subscribe
  | unsubscribe
  | ping
  | response
  | event
  | error
  | pong
  | ack
deriving DecidableEq, Repr

/-- The wire string of each `MessageType` value (the Python enum values). -/
def MessageType.toWire : MessageType → String
  | .request => "request"
  | .subscribe => "subscribe"
  | .unsubscribe => "unsubscribe"
  | .ping => "ping"
  | .response => "response"
  | .event => "event"
  | .error => "error"
  | .pong => "pong"
  | .ack => "ack"

/-- Parse a wire string back into a `MessageType`; pydantic enum
validation fails on any other string. -/
def MessageType.ofWire : String → Option MessageType
  | "request" => some .request
  | "subscribe" => some .subscribe
  | "unsubscribe" => some .unsubscribe
  | "ping" => some .ping
  | "response" => some .response
  | "event" => some .event
  | "error" => some .error
  | "pong" => some .pong
  | "ack" => some .ack
  | _ => none

/-- The `WebSocketMessage` pydantic model from `protocol.py`: the wire
envelope.  `id` and `timestamp` have generated defaults in the source;
here each constructed message carries the concrete generated values. -/
structure WebSocketMessage where
  id : String
  correlation_id : Option String
  type : MessageType
  event : Option String
  data : List (String × Json)
  timestamp : String
  room : Option String
  error_code : Option String
  error_message : Option String

/-- First-match lookup in a JSON object / Python dict rendered as an
association list. -/
def mapGet {α : Type} (k : String) : List (String × α) → Option α
  | [] => none
  | (k', v) :: rest => if k' = k then some v else mapGet k rest

/-- Python `d[k] = v`: replace the value when the key is present,
append otherwise. -/
def mapSet {α : Type} (k : String) (v : α) : List (String × α) → List (String × α)
  | [] => [(k, v)]
  | (k', v') :: rest => if k' = k then (k, v) :: rest else (k', v') :: mapSet k v rest

/-- Python `d.pop(k, None)` / `del d[k]`: drop the entry with the key. -/
def mapErase {α : Type} (k : String) : List (String × α) → List (String × α)
  | [] => []
  | (k', v') :: rest => if k' = k then mapErase k rest else (k', v') :: mapErase k rest

/-- Python `set.add`. -/
def setInsert (x : String) (l : List String) : List String :=
  if x ∈ l then l else l ++ [x]

/-- Serialize an optional string field the way `model_dump_json` does:
`None` becomes JSON `null`. -/
def encodeOptStr : Option String → Json
  | none => Json.null
  | some s => Json.str s

/-- `WebSocketProtocol.encode`: `model_dump_json` over the nine fields of
`WebSocketMessage`, in declaration order, with `None` rendered as `null`
and the enum rendered as its string value. -/
def encode (m : WebSocketMessage) : Json :=
  Json.obj
    [ ("id", Json.str m.id)
    , ("correlation_id", encodeOptStr m.correlation_id)
    , ("type", Json.str m.type.toWire)
    , ("event", encodeOptStr m.event)
    , ("data", Json.obj m.data)
    , ("timestamp", Json.str m.timestamp)
    , ("room", encodeOptStr m.room)
    , ("error_code", encodeOptStr m.error_code)
    , ("error_message", encodeOptStr m.error_message)
    ]

/-- Pydantic validation of an `Optional[str] = None` field: missing or
`null` yields `none`, a string yields it, anything else is a validation
error. -/
def parseOptStr (fields : List (String × Json)) (k : String) : Option (Option String) :=
  match mapGet k fields with
  | none => some none
  | some Json.null => some none
  | some (Json.str s) => some (some s)
  | some _ => none

/-- Pydantic validation of a required-`str`-with-default field (`id`,
`timestamp`): missing yields the generated default, a string yields it,
anything else is a validation error. -/
def parseStrDefault (fields : List (String × Json)) (k : String) (default : String) :
    Option String :=
  match mapGet k fields with
  | none => some default
  | some (Json.str s) => some s
  | some _ => none

/-- Pydantic validation of the `data : Dict[str, Any]` field: missing
yields the empty-dict default, an object yields its fields, anything else
is a validation error. -/
def parseData (fields : List (String × Json)) : Option (List (String × Json)) :=
  match mapGet "data" fields with
  | none => some []
  | some (Json.obj d) => some d
  | some _ => none

/-- Pydantic validation of the required `type` field: it must be present
and must be one of the enum wire strings. -/
def parseType (fields : List (String × Json)) : Option MessageType :=
  match mapGet "type" fields with
  | some (Json.str s) => MessageType.ofWire s
  | _ => none

/-- `WebSocketProtocol.decode`: `model_validate_json`.  Non-object
documents are rejected; the required `type` field is validated; `id` and
`timestamp`, when missing, are filled with the generated defaults
(`freshId`, `freshTs` stand for the `uuid.uuid4()` /
`datetime.now().isoformat()` default factories). -/
def decode (freshId freshTs : String) (j : Json) : Option WebSocketMessage :=
  match j with
  | Json.obj fields => do
    let id ← parseStrDefault fields "id" freshId
    let corr ← parseOptStr fields "correlation_id"
    let ty ← parseType fields
    let ev ← parseOptStr fields "event"
    let d ← parseData fields
    let ts ← parseStrDefault fields "timestamp" freshTs
    let room ← parseOptStr fields "room"
    let ec ← parseOptStr fields "error_code"
    let em ← parseOptStr fields "error_message"
    some ⟨id, corr, ty, ev, d, ts, room, ec, em⟩
  | _ => none

/-- `WebSocketProtocol.create_request`.  `freshId` is the `id` default
factory draw, `freshCorr` the explicit `uuid.uuid4()` draw; Python's
`correlation_id or str(uuid.uuid4())` treats the empty string as falsy. -/
def create_request (freshId freshCorr ts : String) (event : String)
    (data : List (String × Json)) (correlation : Option String) : WebSocketMessage :=
  let corr := match correlation with
    | some s => if s = "" then freshCorr else s
    | none => freshCorr
  { id := freshId, correlation_id := some corr, type := .request,
    event := some event, data := data, timestamp := ts, room := none,
    error_code := none, error_message := none }

/-- `WebSocketProtocol.create_response`: kind is `response` when `error`
is `None`, `error` otherwise; it copies the request's `event` and
`correlation_id`.  Arguments are loosely typed as at the Python call
sites, and pydantic validation of `data : Dict` and
`error_message : Optional[str]` is the `Except.error` path
(a raised `ValidationError`). -/
def create_response (freshId ts : String) (request : WebSocketMessage)
    (data : Json) (error : Option Json) : Except String WebSocketMessage :=
  match data with
  | Json.obj d =>
    match error with
    | none =>
      .ok ⟨freshId, request.correlation_id, .response, request.event, d, ts, none, none, none⟩
    | some (Json.str s) =>
      .ok ⟨freshId, request.correlation_id, .error, request.event, d, ts, none, none, some s⟩
    | some _ => .error "ValidationError: error_message must be a string or null"
  | _ => .error "ValidationError: data must be a dict"

/-- `WebSocketProtocol.create_event`. -/
def create_event (freshId ts : String) (event : String)
    (data : List (String × Json)) (room : Option String) : WebSocketMessage :=
  { id := freshId, correlation_id := none, type := .event, event := some event,
    data := data, timestamp := ts, room := room, error_code := none,
    error_message := none }

/-- `WebSocketProtocol.create_error`. -/
def create_error (freshId ts : String) (error_code error_message : String)
    (correlation : Option String) : WebSocketMessage :=
  { id := freshId, correlation_id := correlation, type := .error, event := none,
    data := [], timestamp := ts, room := none, error_code := some error_code,
    error_message := some error_message }

/-! ## Client: request correlator (`client.py`) -/

/-- Client-side pending-request table (`self.pending_requests`):
correlation key to `asyncio.Future`, futures represented by opaque
numeric handles. -/
structure ClientState where
  pending : List (String × Nat)

/-- Python truthiness of an optional string: `None` and `""` are falsy. -/
def truthyStr : Option String → Option String
  | some s => if s = "" then none else some s
  | none => none

/-- What `_handle_message` did with an inbound envelope. -/
inductive HandleResult where
  | resolved (fut : Nat) (m : WebSocketMessage)
  | emitted (event : String) (data : List (String × Json))
  | ignored

/-- The `elif message.type == EVENT and message.event:` branch of
`WebSocketClient._handle_message`. -/
def handleEventBranch (st : ClientState) (m : WebSocketMessage) :
    ClientState × HandleResult :=
  if m.type = MessageType.event then
    match truthyStr m.event with
    | some e => (st, .emitted e m.data)
    | none => (st, .ignored)
  else (st, .ignored)

/-- `WebSocketClient._handle_message`: a truthy `correlation_id` that is a
key of `pending_requests` pops that entry and fulfills its future;
otherwise an `event` envelope with a truthy event name is dispatched to
handlers; anything else is dropped. -/
def handle_message (st : ClientState) (m : WebSocketMessage) :
    ClientState × HandleResult :=
  match truthyStr m.correlation_id with
  | some k =>
    match mapGet k st.pending with
    | some fut => ({ pending := mapErase k st.pending }, .resolved fut m)
    | none => handleEventBranch st m
  | none => handleEventBranch st m

/-- The registration step of `WebSocketClient.send_request`: build the
request via `create_request(event, data)` and store the future under
`request.id` (`self.pending_requests[request.id] = future`). -/
def send_request_register (freshId freshCorr ts : String) (event : String)
    (data : List (String × Json)) (fut : Nat) (st : ClientState) :
    WebSocketMessage × ClientState :=
  let request := create_request freshId freshCorr ts event data none
  (request, { pending := mapSet request.id fut st.pending })

/-- The `except asyncio.TimeoutError` / `finally` cleanup of
`send_request`: `self.pending_requests.pop(request.id, None)`. -/
def send_request_timeout (reqId : String) (st : ClientState) : ClientState :=
  { pending := mapErase reqId st.pending }

/-- Outcome of a `send_request` call. -/
inductive RequestOutcome where
  | success (reply : WebSocketMessage)
  | timeoutErr (event : String)

/-- `send_request` when no reply fulfills the future within the timeout:
register, wait, pop the pending entry, and raise
`TimeoutError(f"Request ... timed out")`. -/
def send_request_no_reply (freshId freshCorr ts : String) (event : String)
    (data : List (String × Json)) (fut : Nat) (st : ClientState) :
    RequestOutcome × ClientState :=
  let rs := send_request_register freshId freshCorr ts event data fut st
  (.timeoutErr event, send_request_timeout rs.1.id rs.2)

/-- `WebSocketClient.send`: fire-and-forget, transmits a
`create_event(event, data)` envelope. -/
def clientSend (freshId ts : String) (event : String)
    (data : List (String × Json)) : WebSocketMessage :=
  create_event freshId ts event data none

/-- The envelope `WebSocketClient.subscribe_to_room` transmits:
`self.send("subscribe", {"room": room_id})`. -/
def subscribe_to_room (freshId ts room_id : String) : WebSocketMessage :=
  clientSend freshId ts "subscribe" [("room", Json.str room_id)]

/-- The envelope `WebSocketClient.unsubscribe_from_room` transmits:
`self.send("unsubscribe", {"room": room_id})`. -/
def unsubscribe_from_room (freshId ts room_id : String) : WebSocketMessage :=
  clientSend freshId ts "unsubscribe" [("room", Json.str room_id)]

/-! ## Server: connection registry, rooms, session loop (`server.py`) -/

/-- The mutable registries of `WebSocketServer.__init__`:
`connections : dict[connection_id, websocket]` (keys only, transports are
opaque), `connection_rooms : dict[room_id, set[connection_id]]`, and
`room_connections : dict[connection_id, room_id]` — note the source maps
each connection to a single room id. -/
structure ServerState where
  connections : List String
  connection_rooms : List (String × List String)
  room_connections : List (String × String)

/-- `WebSocketServer.join_room`: create the room's member set on first
join, add the connection, and point `room_connections[connection_id]` at
this room. -/
def join_room (s : ServerState) (room_id connection_id : String) : ServerState :=
  let members := (mapGet room_id s.connection_rooms).getD []
  { s with
    connection_rooms := mapSet room_id (setInsert connection_id members) s.connection_rooms,
    room_connections := mapSet connection_id room_id s.room_connections }

/-- `WebSocketServer.leave_room`: discard the connection from the room's
member set, and drop `room_connections[connection_id]` when it points at
this room. -/
def leave_room (s : ServerState) (room_id connection_id : String) : ServerState :=
  let s1 := match mapGet room_id s.connection_rooms with
    | some members =>
      { s with connection_rooms :=
          mapSet room_id (members.filter (· ≠ connection_id)) s.connection_rooms }
    | none => s
  match mapGet connection_id s1.room_connections with
  | some r =>
    if r = room_id then
      { s1 with room_connections := mapErase connection_id s1.room_connections }
    else s1
  | none => s1

/-- `WebSocketServer.leave_all_rooms`: look up the single room recorded in
`room_connections` and leave it. -/
def leave_all_rooms (s : ServerState) (connection_id : String) : ServerState :=
  match mapGet connection_id s.room_connections with
  | some room_id => leave_room s room_id connection_id
  | none => s

/-- The `finally` block of the connection handler in
`WebSocketServer.start`: `on_disconnect` (abstract, a no-op in the base
class) and `del self.connections[connection_id]`.  Room membership is not
touched. -/
def handler_teardown (s : ServerState) (connection_id : String) : ServerState :=
  { s with connections := s.connections.filter (· ≠ connection_id) }

/-- Registration in the handler after `on_connect`:
`self.connections[connection_id] = websocket`. -/
def handler_register (s : ServerState) (connection_id : String) : ServerState :=
  { s with connections := setInsert connection_id s.connections }

/-- Outcome of the connection-accept step of the handler. -/
inductive AcceptOutcome where
  | capacityClose (sent : List WebSocketMessage) (closeCode : Nat) (reason : String)
  | proceed (connection_id : String)

/-- The capacity check at the top of the handler in
`WebSocketServer.start`: at or above `max_connections` the transport is
closed with `websocket.close(1013, "Server at maximum capacity")` — no
envelope is sent.  Otherwise a fresh connection id is drawn and the
handler proceeds; the registries are untouched either way. -/
def acceptStep (s : ServerState) (max_connections : Nat) (freshCid : String) :
    AcceptOutcome × ServerState :=
  if max_connections ≤ s.connections.length then
    (.capacityClose [] 1013 "Server at maximum capacity", s)
  else
    (.proceed freshCid, s)

/-- Outcome of the authentication phase of the handler. -/
inductive AuthOutcome where
  | proceed (sent : List WebSocketMessage)
  | closed (sent : List WebSocketMessage) (closeCode : Nat) (reason : String)

/-- The `require_auth` handshake of the handler in `WebSocketServer.start`
on the first decoded envelope.  `authenticate` stands for
`self.authenticate_websocket(token)` with `token = auth_data.data.get("token")`.
On success the source calls
`create_response(auth_data, 200, {"status": "authenticated", "user_id": ...})`,
passing `200` in the `data` slot and the status dict in the `error` slot;
a raised `ValidationError` there is caught by the surrounding
`except Exception`, which closes with `websocket.close(1011, "Authentication error")`
without sending anything. -/
def handleAuth (authenticate : Option Json → Option (List (String × Json)))
    (freshId ts : String) (auth_data : WebSocketMessage) : AuthOutcome :=
  if auth_data.type = MessageType.request ∧ auth_data.event = some "auth" then
    let token := mapGet "token" auth_data.data
    match authenticate token with
    | none =>
      .closed [create_error freshId ts "AUTH_FAILED" "Invalid or expired token"
        auth_data.correlation_id] 1008 "Authentication failed"
    | some user =>
      match create_response freshId ts auth_data (Json.num 200)
          (some (Json.obj [("status", Json.str "authenticated"),
                           ("user_id", (mapGet "user_id" user).getD Json.null)])) with
      | .ok resp => .proceed [resp]
      | .error _ => .closed [] 1011 "Authentication error"
  else
    .closed [create_error freshId ts "AUTH_REQUIRED" "Authentication required" none]
      1008 "Authentication required"

/-- Result of `WebSocketServer.broadcast_to_room`: the (room-stamped)
envelope that was encoded, the members it was delivered to, and the
members whose send raised and was logged. -/
structure BroadcastResult where
  message : WebSocketMessage
  delivered : List String
  failed : List String

/-- `WebSocketServer.broadcast_to_room`: return early when the room is
unknown; otherwise stamp `message.room = room_id` and loop over the
member list, skipping ids absent from `connections` and catching (and
only logging) per-recipient send errors.  `sendOk` stands for whether
`websocket.send` succeeds for a given connection. -/
def broadcast_to_room (s : ServerState) (sendOk : String → Bool)
    (room_id : String) (message : WebSocketMessage) : BroadcastResult :=
  match mapGet room_id s.connection_rooms with
  | none => ⟨message, [], []⟩
  | some members =>
    let msg := { message with room := some room_id }
    ⟨msg,
     members.filter (fun c => s.connections.contains c && sendOk c),
     members.filter (fun c => s.connections.contains c && !sendOk c)⟩

/-- The room members the registry records for a room. -/
def roomMembers (s : ServerState) (room_id : String) : List String :=
  (mapGet room_id s.connection_rooms).getD []

/-! ## Token authenticator (`auth.py`)

`WebSocketAuthenticator.verify_token` wraps the external PyJWT
`jwt.decode` call.  PyJWT is modelled by its documented contract (also
exercised by this repository's `test_websocket_auth.py`): a malformed
token raises a `DecodeError`-style `InvalidTokenError`, a wrong signature
raises an `InvalidTokenError`, and an expired `exp` claim raises
`ExpiredSignatureError`; signature verification runs before the expiry
check. -/

/-- The payload and expiry a well-formed JWT carries. -/
structure JwtClaims where
  payload : List (String × Json)
  exp : Nat

/-- A token as received: either not a well-formed JWT at all, or a
claims-set plus a signature string. -/
inductive TokenWire where
  | malformed (raw : String)
  | signed (claims : JwtClaims) (sig : String)

/-- The signature the configured secret produces over a claims-set
(HMAC modelled as a deterministic tag). -/
def mkSignature (secret : String) (claims : JwtClaims) : String :=
  secret ++ "#" ++ toString claims.exp ++ "#" ++
    String.intercalate "," (claims.payload.map (fun p => p.1))

/-- The exceptions `jwt.decode` raises. -/
inductive JwtError where
  | expiredSignature
  | invalidToken (reason : String)

/-- The external `jwt.decode(token, secret, algorithms=[...])` call:
malformed input and signature mismatch raise `InvalidTokenError`
(signature checked first), an expired token raises
`ExpiredSignatureError`, and otherwise the payload is returned. -/
def jwtDecode (secret : String) (now : Nat) (t : TokenWire) :
    Except JwtError (List (String × Json)) :=
  match t with
  | .malformed _ => .error (.invalidToken "Not enough segments")
  | .signed claims sig =>
    if sig = mkSignature secret claims then
      if now < claims.exp then .ok claims.payload
      else .error .expiredSignature
    else .error (.invalidToken "Signature verification failed")

/-- `WebSocketAuthenticator.verify_token`: call `jwt.decode` and map
`ExpiredSignatureError` and `InvalidTokenError` to `None`; the payload is
returned on success. -/
def verify_token (secret : String) (now : Nat) (t : TokenWire) :
    Option (List (String × Json)) :=
  match jwtDecode secret now t with
  | .ok payload => some payload
  | .error .expiredSignature => none
  | .error (.invalidToken _) => none

/-! ## Helper lemmas -/

theorem mapGet_mapErase_self {α : Type} (k : String) (l : List (String × α)) :
    mapGet k (mapErase k l) = none := by
  induction l with
  | nil => rfl
  | cons hd tl ih =>
    by_cases h : hd.1 = k
    · simpa [mapErase, h] using ih
    · simp [mapErase, mapGet, h, ih]

theorem handleEventBranch_state (st : ClientState) (m : WebSocketMessage) :
    (handleEventBranch st m).1 = st := by
  cases htr : truthyStr m.event <;>
    by_cases h : m.type = MessageType.event <;>
      simp [handleEventBranch, h, htr]

theorem handleEventBranch_not_resolved (st : ClientState) (m : WebSocketMessage)
    (f : Nat) (r : WebSocketMessage) :
    (handleEventBranch st m).2 ≠ HandleResult.resolved f r := by
  cases htr : truthyStr m.event <;>
    by_cases h : m.type = MessageType.event <;>
      simp [handleEventBranch, h, htr]

/-! ## Claim theorems -/

/-- C6: for every valid envelope `m` (and any draws of the generated
`id`/`timestamp` defaults, which decoding never uses on encoder output),
decoding its encoding yields `m` again; the `data` payload — including
any unknown application fields — comes back unchanged. -/
theorem decode_encode_roundtrip (m : WebSocketMessage) (freshId freshTs : String) :
    decode freshId freshTs (encode m) = some m := by
  cases m with
  | mk id corr ty ev d ts room ec em =>
    cases corr <;> cases ev <;> cases room <;> cases ec <;> cases em <;> cases ty <;> rfl

/-- C7 (counterexample): `decode` does not reject an input missing the
`id` field — `id` has a `default_factory` in the pydantic model, so an
object carrying only `type` decodes successfully with a freshly generated
id and timestamp. -/
theorem decode_accepts_missing_id :
    decode "generated-id" "generated-ts" (Json.obj [("type", Json.str "ping")]) =
      some ⟨"generated-id", none, MessageType.ping, none, [], "generated-ts",
        none, none, none⟩ := rfl

/-- C7 (amended): `decode` rejects every input missing the `kind`
(`type`) field; an input missing only `id` is accepted, with the
generated default filled in. -/
theorem decode_missing_kind_rejected (freshId freshTs : String)
    (fields : List (String × Json)) (h : mapGet "type" fields = none) :
    decode freshId freshTs (Json.obj fields) = none ∧
    decode freshId freshTs (Json.obj [("type", Json.str "ping")]) =
      some ⟨freshId, none, MessageType.ping, none, [], freshTs, none, none, none⟩ := by
  constructor
  · have ht : parseType fields = none := by simp [parseType, h]
    unfold decode
    cases h1 : parseStrDefault fields "id" freshId <;>
      cases h2 : parseOptStr fields "correlation_id" <;>
        simp [h1, h2, ht, Option.bind]
  · rfl

/-- C7 (witness): the amended theorem applied to the empty object. -/
theorem decode_missing_kind_rejected_witness :
    decode "fresh-id" "fresh-ts" (Json.obj []) = none ∧
    decode "fresh-id" "fresh-ts" (Json.obj [("type", Json.str "ping")]) =
      some ⟨"fresh-id", none, MessageType.ping, none, [], "fresh-ts", none, none, none⟩ :=
  decode_missing_kind_rejected "fresh-id" "fresh-ts" [] rfl

/-- C4 (counterexample): the envelope `subscribe_to_room` puts on the
wire has kind `event`, not kind `subscribe`. -/
theorem subscribe_envelope_kind_not_subscribe :
    (subscribe_to_room "u1" "t0" "pool:1").type ≠ MessageType.subscribe := by
  decide

/-- C4 (amended): `subscribe_to_room r` transmits an envelope of kind
`event` with `eventName = "subscribe"` and data `{room: r}`, and
`unsubscribe_from_room r` transmits kind `event` with
`eventName = "unsubscribe"` and data `{room: r}` — the dedicated
`subscribe`/`unsubscribe` message kinds are not used. -/
theorem subscribe_unsubscribe_wire_shape (freshId ts room_id : String) :
    (subscribe_to_room freshId ts room_id).type = MessageType.event ∧
    (subscribe_to_room freshId ts room_id).event = some "subscribe" ∧
    (subscribe_to_room freshId ts room_id).data = [("room", Json.str room_id)] ∧
    (unsubscribe_from_room freshId ts room_id).type = MessageType.event ∧
    (unsubscribe_from_room freshId ts room_id).event = some "unsubscribe" ∧
    (unsubscribe_from_room freshId ts room_id).data = [("room", Json.str room_id)] :=
  ⟨rfl, rfl, rfl, rfl, rfl, rfl⟩

/-- C5 (counterexample): with `max_connections = 1` and one registered
connection, the second accept closes the transport (code 1013) with an
empty list of sent envelopes — no error envelope reaches the peer before
the close. -/
theorem capacity_reject_sends_no_envelope :
    (acceptStep ⟨["c1"], [], []⟩ 1 "c2").1 =
      AcceptOutcome.capacityClose [] 1013 "Server at maximum capacity" := rfl

/-- C5 (amended): whenever a connection is accepted at or above
`max_connections`, the server closes the new transport immediately with
close code 1013 and reason "Server at maximum capacity", sending no error
envelope, and the registries (hence every already-accepted connection)
are unaffected. -/
theorem capacity_reject_close_code (s : ServerState) (maxConn : Nat) (freshCid : String)
    (h : maxConn ≤ s.connections.length) :
    (acceptStep s maxConn freshCid).1 =
      AcceptOutcome.capacityClose [] 1013 "Server at maximum capacity" ∧
    (acceptStep s maxConn freshCid).2 = s := by
  simp [acceptStep, h]

/-- C5 (witness): the amended theorem at a concrete full server. -/
theorem capacity_reject_close_code_witness :
    (acceptStep ⟨["conn1"], [], []⟩ 1 "conn2").1 =
      AcceptOutcome.capacityClose [] 1013 "Server at maximum capacity" ∧
    (acceptStep ⟨["conn1"], [], []⟩ 1 "conn2").2 = ⟨["conn1"], [], []⟩ :=
  capacity_reject_close_code ⟨["conn1"], [], []⟩ 1 "conn2" (by decide)

/-- C2 (code bug): a registered connection `c1` joins rooms `a` then `b`;
because `room_connections` records only the most recent room,
`leave_all_rooms` removes `c1` from `b` only and leaves it a member of
`a`; and the handler teardown (`finally` block) never calls
`leave_all_rooms` at all, so after teardown `c1` is still a member of
both rooms. -/
theorem leave_all_rooms_misses_earlier_room :
    roomMembers (leave_all_rooms
      (join_room (join_room ⟨["c1"], [], []⟩ "a" "c1") "b" "c1") "c1") "a" = ["c1"] ∧
    roomMembers (leave_all_rooms
      (join_room (join_room ⟨["c1"], [], []⟩ "a" "c1") "b" "c1") "c1") "b" = [] ∧
    roomMembers (handler_teardown
      (join_room (join_room ⟨["c1"], [], []⟩ "a" "c1") "b" "c1") "c1") "a" = ["c1"] ∧
    roomMembers (handler_teardown
      (join_room (join_room ⟨["c1"], [], []⟩ "a" "c1") "b" "c1") "c1") "b" = ["c1"] :=
  ⟨rfl, rfl, rfl, rfl⟩

/-- C3 (code bug): with `require_auth` enabled, a first envelope that is
a `request` with event `"auth"` and a token the authenticator accepts
does not produce an authenticated `response`: the source calls
`create_response(auth_data, 200, {...})` with `200` in the `data` slot
and the status dict in the `error` slot, the resulting validation error
is caught by the handshake's `except Exception`, and the transport is
closed with code 1011 with no envelope sent. -/
theorem auth_success_closes_without_response :
    handleAuth (fun _ => some [("user_id", Json.str "alice")]) "e1" "t1"
      (create_request "u1" "u2" "t0" "auth" [("token", Json.str "tok")] none) =
    AuthOutcome.closed [] 1011 "Authentication error" := rfl

/-- C1 (code bug): `send_request` registers the pending entry under the
envelope's `id` ("u1"), not under the freshly generated `correlationId`
("u2") that the transmitted request carries; a reply built by the
server's `create_response` echoes `correlationId = "u2"`, so
`_handle_message` finds no pending entry and the suspended caller is
never released. -/
theorem send_request_pending_keyed_by_envelope_id_not_correlation :
    (send_request_register "u1" "u2" "t0" "get_session" [] 7 ⟨[]⟩).1.id = "u1" ∧
    (send_request_register "u1" "u2" "t0" "get_session" [] 7 ⟨[]⟩).1.correlation_id =
      some "u2" ∧
    (send_request_register "u1" "u2" "t0" "get_session" [] 7 ⟨[]⟩).2.pending =
      [("u1", 7)] ∧
    (match create_response "u3" "t1"
        (send_request_register "u1" "u2" "t0" "get_session" [] 7 ⟨[]⟩).1
        (Json.obj [("ok", Json.bool true)]) none with
     | .ok r =>
        r.correlation_id = some "u2" ∧
        handle_message (send_request_register "u1" "u2" "t0" "get_session" [] 7 ⟨[]⟩).2 r =
          ((send_request_register "u1" "u2" "t0" "get_session" [] 7 ⟨[]⟩).2,
            HandleResult.ignored)
     | .error _ => False) :=
  ⟨rfl, rfl, rfl, rfl, rfl⟩

/-- C10: when no reply arrives within the timeout, `send_request` raises
`TimeoutError` and pops the pending entry, so no PendingRequest for that
request remains; any late envelope addressed to the registered key is
then silently dropped by `_handle_message` — the client state is
unchanged and no future is resolved. -/
theorem send_request_timeout_clears_pending (st : ClientState)
    (freshId freshCorr ts event : String) (data : List (String × Json)) (fut : Nat)
    (m : WebSocketMessage)
    (hm : truthyStr m.correlation_id =
      some (send_request_register freshId freshCorr ts event data fut st).1.id) :
    (send_request_no_reply freshId freshCorr ts event data fut st).1 =
      RequestOutcome.timeoutErr event ∧
    mapGet (send_request_register freshId freshCorr ts event data fut st).1.id
      (send_request_no_reply freshId freshCorr ts event data fut st).2.pending = none ∧
    (handle_message (send_request_no_reply freshId freshCorr ts event data fut st).2 m).1 =
      (send_request_no_reply freshId freshCorr ts event data fut st).2 ∧
    ∀ f r,
      (handle_message (send_request_no_reply freshId freshCorr ts event data fut st).2 m).2 ≠
        HandleResult.resolved f r := by
  have hkey : mapGet (send_request_register freshId freshCorr ts event data fut st).1.id
      (send_request_no_reply freshId freshCorr ts event data fut st).2.pending = none := by
    simp [send_request_no_reply, send_request_timeout, mapGet_mapErase_self]
  refine ⟨rfl, hkey, ?_, ?_⟩
  · simp [handle_message, hm, hkey, handleEventBranch_state]
  · intro f r
    simp only [handle_message, hm, hkey]
    exact handleEventBranch_not_resolved _ _ f r

/-- C10 (witness): a concrete timed-out request whose key is "u1" and a
late reply carrying correlation id "u1". -/
theorem send_request_timeout_clears_pending_witness :
    (send_request_no_reply "u1" "u2" "t0" "ping" [] 3 ⟨[]⟩).1 =
      RequestOutcome.timeoutErr "ping" ∧
    mapGet (send_request_register "u1" "u2" "t0" "ping" [] 3 ⟨[]⟩).1.id
      (send_request_no_reply "u1" "u2" "t0" "ping" [] 3 ⟨[]⟩).2.pending = none ∧
    (handle_message (send_request_no_reply "u1" "u2" "t0" "ping" [] 3 ⟨[]⟩).2
      ⟨"x", some "u1", MessageType.response, none, [], "t2", none, none, none⟩).1 =
      (send_request_no_reply "u1" "u2" "t0" "ping" [] 3 ⟨[]⟩).2 ∧
    ∀ f r,
      (handle_message (send_request_no_reply "u1" "u2" "t0" "ping" [] 3 ⟨[]⟩).2
        ⟨"x", some "u1", MessageType.response, none, [], "t2", none, none, none⟩).2 ≠
        HandleResult.resolved f r :=
  send_request_timeout_clears_pending ⟨[]⟩ "u1" "u2" "t0" "ping" [] 3
    ⟨"x", some "u1", MessageType.response, none, [], "t2", none, none, none⟩ rfl

/-- C8: `verify_token` returns `none` on a malformed token, on a
signature mismatch, and on an expired token; its only non-`none` result
is the payload of a well-formed token whose signature matches and whose
expiry lies in the future — failure is signalled exclusively through the
return value (the embedded function is total; the two PyJWT exception
classes are caught and mapped to `None`). -/
theorem verify_token_failure_modes (secret : String) (now : Nat) (t : TokenWire) :
    (∀ raw, t = TokenWire.malformed raw → verify_token secret now t = none) ∧
    (∀ claims sig, t = TokenWire.signed claims sig →
      sig ≠ mkSignature secret claims → verify_token secret now t = none) ∧
    (∀ claims sig, t = TokenWire.signed claims sig →
      claims.exp ≤ now → verify_token secret now t = none) ∧
    (∀ claims sig, t = TokenWire.signed claims sig →
      sig = mkSignature secret claims → now < claims.exp →
      verify_token secret now t = some claims.payload) := by
  refine ⟨?_, ?_, ?_, ?_⟩
  · rintro raw rfl
    rfl
  · rintro claims sig rfl hs
    simp [verify_token, jwtDecode, hs]
  · rintro claims sig rfl hexp
    by_cases hs : sig = mkSignature secret claims <;>
      simp [verify_token, jwtDecode, hs, Nat.not_lt.mpr hexp]
  · rintro claims sig rfl hs hlt
    simp [verify_token, jwtDecode, hs, hlt]

/-- C8 (witness): the theorem applied to a concrete malformed token, a
concrete tampered signature, and a concrete expired token. -/
theorem verify_token_failure_modes_witness :
    verify_token "secret-key" 5 (TokenWire.malformed "only.two") = none ∧
    verify_token "secret-key" 5 (TokenWire.signed ⟨[], 9⟩ "tampered") = none ∧
    verify_token "secret-key" 5 (TokenWire.signed ⟨[], 4⟩
      (mkSignature "secret-key" ⟨[], 4⟩)) = none :=
  ⟨(verify_token_failure_modes "secret-key" 5 (TokenWire.malformed "only.two")).1
      "only.two" rfl,
   (verify_token_failure_modes "secret-key" 5
      (TokenWire.signed ⟨[], 9⟩ "tampered")).2.1 ⟨[], 9⟩ "tampered" rfl (by decide),
   (verify_token_failure_modes "secret-key" 5 (TokenWire.signed ⟨[], 4⟩
      (mkSignature "secret-key" ⟨[], 4⟩))).2.2.1 ⟨[], 4⟩ _ rfl (by decide)⟩

/-- C9: `broadcast_to_room` delivers the envelope to exactly those
members of the room that are still registered connections and whose
individual send succeeds, and it collects exactly the registered members
whose send fails — each member's outcome depends only on that member, so
one member's send failure cannot prevent delivery to the rest, and the
call returns normally (failures are logged per recipient, never
aggregated into an error for the caller). -/
theorem broadcast_delivery_characterization (s : ServerState) (sendOk : String → Bool)
    (room_id : String) (m : WebSocketMessage) (c : String) :
    (c ∈ (broadcast_to_room s sendOk room_id m).delivered ↔
      (c ∈ roomMembers s room_id ∧ c ∈ s.connections ∧ sendOk c = true)) ∧
    (c ∈ (broadcast_to_room s sendOk room_id m).failed ↔
      (c ∈ roomMembers s room_id ∧ c ∈ s.connections ∧ sendOk c = false)) := by
  unfold broadcast_to_room roomMembers
  cases h : mapGet room_id s.connection_rooms with
  | none => simp
  | some members =>
    simp [List.mem_filter]

end McpCommon
